import Mathlib

/- Shallow embedding of the halt-workspace scripts (workspace_utils.py,
   workspace_features.py, main.py).  HTTP traffic is modelled by its
   observable data: response statuses and page payloads are inputs, and
   the remote calls a function issues are returned explicitly. -/

namespace HW

/-- Python error values arising in the scripts.  `systemExit` models
`sys.exit(code)` (`none` = bare `sys.exit()`, which exits the process
with status 0); `SystemExit` derives from `BaseException`, not
`Exception`, so `except Exception` does not catch it.  The remaining
constructors model ordinary `Exception` subclasses.  `noResponse` is a
modelling artifact marking inputs where the modelled server would have
to produce a response beyond the given page sequence. -/
inductive PyErr
  | systemExit (code : Option Nat)
  | valueError
  | keyError
  | typeError
  | fileNotFound
  | exc
  | noResponse
deriving DecidableEq, Repr

/-- Whether a raised value is caught by `except Exception`. -/
def PyErr.isException : PyErr → Bool
  | .systemExit _ => false
  | .noResponse => false
  | _ => true

/-- Exit status of the Python process when a run ends with the given
error uncaught: bare `sys.exit()` exits 0, `sys.exit(n)` exits n, and
an uncaught ordinary exception makes the interpreter exit 1. -/
def PyErr.exitStatus : PyErr → Nat
  | .systemExit none => 0
  | .systemExit (some c) => c
  | _ => 1

/-- Exit status of a modelled top-level run. -/
def runExit {α : Type} : Except PyErr α → Nat
  | .ok _ => 0
  | .error e => e.exitStatus

/-- workspace_utils.check_errors: on a non-200 status it prints and
calls bare `sys.exit()`. -/
def check_errors (status : Nat) : Except PyErr Unit :=
  if status ≠ 200 then .error (.systemExit none) else .ok ()

/-- workspace_utils.get_env_var: `None` or empty string raises
ValueError, otherwise returns the value. -/
def get_env_var (var_value : Option String) : Except PyErr String :=
  match var_value with
  | none => .error .valueError
  | some s => if s = "" then .error .valueError else .ok s

/-- main.get_access_token: returns the token, or prints and
`sys.exit(1)` when the `az` subprocess fails. -/
def get_access_token (az_result : Option String) : Except PyErr String :=
  match az_result with
  | some token => .ok token
  | none => .error (.systemExit (some 1))

/-- A value stored under an environment name in `.env.json`: either a
URL string or some non-string JSON value. -/
inductive EnvEntry
  | url (s : String)
  | nonString
deriving DecidableEq, Repr

/-- Lookup of a key in the decoded `.env.json` object
(`json.load(f)[args.env]`; a missing key raises KeyError). -/
def lookupEnv : List (String × EnvEntry) → String → Option EnvEntry
  | [], _ => none
  | (k, v) :: rest, envName => if k = envName then some v else lookupEnv rest envName

/-- Match of `(\d+)\.` at the point just after a literal `adb-`:
a maximal nonempty digit run that must be followed by a dot.  (`\d+` is
greedy and a shorter digit run would still be followed by a digit, not
a dot, so no further backtracking can succeed.) -/
def matchAdbDigits (cs : List Char) : Option String :=
  let ds := cs.takeWhile Char.isDigit
  match cs.drop ds.length with
  | '.' :: _ => if ds.isEmpty then none else some (String.mk ds)
  | _ => none

/-- `re.search(r"adb-(\d+)\.", url)` over the character list: try the
pattern at each position, left to right, returning the first captured
digit group. -/
def searchAdb : List Char → Option String
  | 'a' :: 'd' :: 'b' :: '-' :: tail =>
    match matchAdbDigits tail with
    | some ds => some ds
    | none => searchAdb ('d' :: 'b' :: '-' :: tail)
  | _ :: rest => searchAdb rest
  | [] => none

/-- Workspace id extraction from the workspace URL in main.py. -/
def extractWorkspaceId (url : String) : Option String :=
  searchAdb url.toList

/-- The `.env.json` loading block of main.py, lines 99-120.  The input
is the decoded file (`none` = the file is missing, so `open` raises
FileNotFoundError before the `try` block and it escapes uncaught).
A missing key (KeyError), a non-string value (TypeError from
`re.search`) and a URL not matching `adb-<digits>.` (ValueError) are
each caught and turned into `sys.exit(1)`. -/
def loadEnv (file : Option (List (String × EnvEntry))) (envName : String) :
    Except PyErr (String × String) :=
  match file with
  | none => .error .fileNotFound
  | some entries =>
    match lookupEnv entries envName with
    | none => .error (.systemExit (some 1))
    | some .nonString => .error (.systemExit (some 1))
    | some (.url u) =>
      match extractWorkspaceId u with
      | none => .error (.systemExit (some 1))
      | some wid => .ok (u, wid)

/-- Python `str.isdigit` for the restore-point prompt answer. -/
def str_isdigit (s : String) : Bool :=
  !s.isEmpty && s.toList.all Char.isDigit

/-- workspace_utils.choose_restore_point.  `listing` is the directory
listing of `restore_states` restricted to subdirectories and sorted by
modification time, most recent first (both are filesystem metadata,
modelled as given); `none` means the directory is missing, in which
case `os.listdir` raises FileNotFoundError, caught and turned into a
bare `sys.exit()`.  An empty prefix-filtered list is also a bare
`sys.exit()`.  With several candidates the interactive `input` answer
`choice` selects one, defaulting to the most recent. -/
def choose_restore_point (listing : Option (List String)) (rtl_env : String)
    (choice : String) : Except PyErr String :=
  match listing with
  | none => .error (.systemExit none)
  | some entries =>
    let dirs := entries.filter (fun d => d.startsWith rtl_env)
    match dirs with
    | [] => .error (.systemExit none)
    | d0 :: restDirs =>
      if restDirs.isEmpty then
        .ok ("restore_states/" ++ d0)
      else
        let n := (choice.toNat?).getD 0
        let backup_folder :=
          if str_isdigit choice && decide (1 ≤ n) && decide (n ≤ dirs.length) then
            dirs.getD (n - 1) d0
          else d0
        .ok ("restore_states/" ++ backup_folder)

/-- One page of a paginated list response, as consumed by
`DatabricksFeature.combine_paginated_results`: the HTTP status, the
array stored under the aggregate key (`none` = the key is absent from
the JSON object), and the `has_more` field (`none` = absent).  The
continuation token only feeds the next request's params, which the
model represents by the arrival order of the page sequence, so it
carries no separate field.  Items are abstract and modelled as `Nat`. -/
structure Page where
  status : Nat
  items : Option (List Nat)
  has_more : Option Bool
deriving DecidableEq, Repr

/-- The `while has_more` loop of `combine_paginated_results`, entered
with the accumulated aggregate array (`none` if the key is absent from
the accumulated results) and the previous page's `has_more` value.
Loop body order follows the source: (1) `aggregate_on not in results`
raises ValueError; (2) the next GET is issued; (3) `check_errors` exits
on a non-200 status; (4) `results[aggregate_on] += response.json()[aggregate_on]`
raises KeyError when the page lacks the key; (5) `response.json()["has_more"]`
raises KeyError when absent. -/
def combineLoop : Option (List Nat) → Bool → List Page → Except PyErr (Option (List Nat))
  | acc, false, _ => .ok acc
  | acc, true, pages =>
    match acc with
    | none => .error .valueError
    | some items =>
      match pages with
      | [] => .error .noResponse
      | p :: rest =>
        if p.status ≠ 200 then .error (.systemExit none)
        else
          match p.items with
          | none => .error .keyError
          | some pageItems =>
            match p.has_more with
            | none => .error .keyError
            | some hm => combineLoop (some (items ++ pageItems)) hm rest

/-- `DatabricksFeature.combine_paginated_results`: the first GET's page
is checked by `check_errors`, its `has_more` read with
`results.get("has_more", False)`, then the continuation loop runs.  The
returned collection is represented by its aggregate-key array (`none`
when the key is absent). -/
def combine_paginated_results : List Page → Except PyErr (Option (List Nat))
  | [] => .error .noResponse
  | p0 :: rest =>
    if p0.status ≠ 200 then .error (.systemExit none)
    else combineLoop p0.items (p0.has_more.getD false) rest

/-- A well-formed N-page response sequence in which page i carries the
given items under the aggregate key: every page has status 200 and the
server reports `has_more = true` on every page but the last. -/
def mkPages : List (List Nat) → List Page
  | [] => []
  | [l] => [⟨200, some l, some false⟩]
  | l :: rest => ⟨200, some l, some true⟩ :: mkPages rest

/-- Behaviour of one per-principal HTTP mutation (DELETE in `stop`,
PUT in `restore`): either the request completes with the given status
code, or the request itself raises an ordinary exception (connection
error etc.). -/
inductive TaskBehavior
  | status (code : Nat)
  | raises
deriving DecidableEq, Repr

/-- `WorkspacePermissions._remove_permission`: issue the DELETE, then
`check_errors` on the response. -/
def remove_permission : TaskBehavior → Except PyErr Unit
  | .status c => check_errors c
  | .raises => .error .exc

/-- `WorkspacePermissions._restore_permission`: issue the PUT, then
`check_errors` on the response. -/
def restore_permission : TaskBehavior → Except PyErr Unit
  | .status c => check_errors c
  | .raises => .error .exc

/-- The principal ids `stop` submits DELETE tasks for: all current
ones, minus the ignore-list when `kwargs.get("ignored_principals")` is
truthy (an empty list is falsy, skipping the filter — with the same
result). -/
def revokedIds (principal_ids ignored : List Nat) : List Nat :=
  if ignored.isEmpty then principal_ids
  else principal_ids.filter (fun p => !(ignored.contains p))

/-- The result-collection loop over the submitted futures, in
submission order: `future.result()` re-raises the task's exception;
`except Exception` catches and logs ordinary exceptions and continues,
while anything else (in particular the `SystemExit` raised by
`check_errors` via bare `sys.exit()`) propagates to the caller.  All
submitted tasks still run to completion, because `ThreadPoolExecutor`'s
context exit waits for them. -/
def collectFutures : List (Except PyErr Unit) → Except PyErr Unit
  | [] => .ok ()
  | r :: rest =>
    match r with
    | .ok _ => collectFutures rest
    | .error e => if e.isException then collectFutures rest else .error e

/-- Observable outcome of `WorkspacePermissions.stop`: the DELETE
tasks submitted (all of which execute), and either the count printed by
the final `Deleted {len(principal_ids)} permissions` line or the error
that escaped the collection loop. -/
structure PermStop where
  submitted : List Nat
  outcome : Except PyErr Nat
deriving Repr

/-- `WorkspacePermissions.stop`: fetch assignments, store the snapshot,
filter the ignore-list, submit one DELETE task per remaining principal
to the executor (`max_workers=150`), then collect results.  `behav`
gives each principal's task behaviour. -/
def permissionsStop (principal_ids ignored : List Nat)
    (behav : Nat → TaskBehavior) : PermStop :=
  let ids := revokedIds principal_ids ignored
  { submitted := ids
    outcome :=
      (collectFutures (ids.map (fun p => remove_permission (behav p)))).map
        (fun _ => ids.length) }

/-- Number of submitted tasks that succeeded. -/
def successCount (results : List (Except PyErr Unit)) : Nat :=
  (results.filter (fun r => match r with | .ok _ => true | .error _ => false)).length

/-- Whether a task result escapes the `except Exception` handler of the
collection loop. -/
def taskEscapes : Except PyErr Unit → Bool
  | .ok _ => false
  | .error e => !e.isException

/-- `WorkspacePermissions.restore`: `open` on the snapshot file is not
guarded, so a missing file raises FileNotFoundError to the caller;
otherwise one PUT task per recorded assignment is submitted and results
are collected exactly as in `stop`, ending with the printed count. -/
def permissionsRestore (snapshot : Option (List Nat))
    (behav : Nat → TaskBehavior) : Except PyErr Nat :=
  match snapshot with
  | none => .error .fileNotFound
  | some assignments =>
    (collectFutures (assignments.map (fun p => restore_permission (behav p)))).map
      (fun _ => assignments.length)

/-- `settings.schedule` of a job: pause status, cron expression and
timezone, the exact fields the update payloads carry. -/
structure Schedule where
  pause_status : String
  quartz_cron_expression : String
  timezone_id : String
deriving DecidableEq, Repr

/-- `settings.continuous` / `settings.trigger`: only the pause status
is read and written. -/
structure PauseOnly where
  pause_status : String
deriving DecidableEq, Repr

/-- The parts of a job's `settings` that stop/restore read or write. -/
structure JobSettings where
  schedule : Option Schedule
  continuous : Option PauseOnly
  trigger : Option PauseOnly
deriving DecidableEq, Repr

/-- A job as returned by `jobs/list`. -/
structure Job where
  job_id : Nat
  settings : JobSettings
deriving DecidableEq, Repr

/-- A `jobs/update` POST payload: the job id and the `new_settings`
fragment it carries. -/
inductive JobUpdate
  | schedule (job_id : Nat) (sched : Schedule)
  | continuous (job_id : Nat) (pause_status : String)
  | trigger (job_id : Nat) (pause_status : String)
deriving DecidableEq, Repr

/-- The job id an update addresses. -/
def JobUpdate.jobId : JobUpdate → Nat
  | .schedule i _ => i
  | .continuous i _ => i
  | .trigger i _ => i

/-- Whether an update is a schedule update for the given job. -/
def JobUpdate.isScheduleFor : JobUpdate → Nat → Bool
  | .schedule i _, j => i == j
  | _, _ => false

/-- Whether an update writes the `schedule` field. -/
def JobUpdate.touchesSchedule : JobUpdate → Bool
  | .schedule _ _ => true
  | _ => false

/-- Effect of a `jobs/update` POST on one job's server-side settings:
the carried `new_settings` fragment replaces that field of the matching
job and leaves every other job untouched. -/
def applyToJob (w : Job) (u : JobUpdate) : Job :=
  if w.job_id = u.jobId then
    match u with
    | .schedule _ sched => { w with settings := { w.settings with schedule := some sched } }
    | .continuous _ ps => { w with settings := { w.settings with continuous := some (PauseOnly.mk ps) } }
    | .trigger _ ps => { w with settings := { w.settings with trigger := some (PauseOnly.mk ps) } }
  else w

/-- Effect of one update on the whole remote job list. -/
def applyUpdate (remote : List Job) (u : JobUpdate) : List Job :=
  remote.map (fun w => applyToJob w u)

/-- Effect of a sequence of updates, applied in issue order. -/
def applyUpdates (remote : List Job) (us : List JobUpdate) : List Job :=
  us.foldl applyUpdate remote

/-- `workflow["settings"].get("schedule", {}).get("pause_status") == "UNPAUSED"`. -/
def schedIsUnpaused (w : Job) : Bool :=
  match w.settings.schedule with
  | some s => s.pause_status == "UNPAUSED"
  | none => false

/-- `workflow["settings"].get("continuous", {}).get("pause_status") == "UNPAUSED"`. -/
def contIsUnpaused (w : Job) : Bool :=
  match w.settings.continuous with
  | some c => c.pause_status == "UNPAUSED"
  | none => false

/-- `workflow["settings"].get("trigger", {}).get("pause_status") == "UNPAUSED"`. -/
def trigIsUnpaused (w : Job) : Bool :=
  match w.settings.trigger with
  | some t => t.pause_status == "UNPAUSED"
  | none => false

/-- Schedule update issued for one job by `Workflows.stop`: pause the
schedule, preserving the fetched cron expression and timezone. -/
def schedStopUpd (w : Job) : List JobUpdate :=
  match w.settings.schedule with
  | some s =>
    if s.pause_status == "UNPAUSED" then
      [.schedule w.job_id (Schedule.mk "PAUSED" s.quartz_cron_expression s.timezone_id)]
    else []
  | none => []

/-- Continuous update issued for one job by `Workflows.stop`. -/
def contStopUpd (w : Job) : List JobUpdate :=
  match w.settings.continuous with
  | some c => if c.pause_status == "UNPAUSED" then [.continuous w.job_id "PAUSED"] else []
  | none => []

/-- Trigger update issued for one job by `Workflows.stop`. -/
def trigStopUpd (w : Job) : List JobUpdate :=
  match w.settings.trigger with
  | some t => if t.pause_status == "UNPAUSED" then [.trigger w.job_id "PAUSED"] else []
  | none => []

/-- All updates `Workflows.stop` issues for one job, in source order:
schedule, then continuous, then trigger. -/
def jobStopUpdates (w : Job) : List JobUpdate :=
  schedStopUpd w ++ contStopUpd w ++ trigStopUpd w

/-- Schedule update issued for one recorded job by `Workflows.restore`:
if the snapshot recorded the schedule as UNPAUSED, unpause it again with
the recorded cron expression and timezone. -/
def schedRestoreUpd (w : Job) : List JobUpdate :=
  match w.settings.schedule with
  | some s =>
    if s.pause_status == "UNPAUSED" then
      [.schedule w.job_id (Schedule.mk "UNPAUSED" s.quartz_cron_expression s.timezone_id)]
    else []
  | none => []

/-- Continuous update issued for one recorded job by `Workflows.restore`. -/
def contRestoreUpd (w : Job) : List JobUpdate :=
  match w.settings.continuous with
  | some c => if c.pause_status == "UNPAUSED" then [.continuous w.job_id "UNPAUSED"] else []
  | none => []

/-- Trigger update issued for one recorded job by `Workflows.restore`. -/
def trigRestoreUpd (w : Job) : List JobUpdate :=
  match w.settings.trigger with
  | some t => if t.pause_status == "UNPAUSED" then [.trigger w.job_id "UNPAUSED"] else []
  | none => []

/-- All updates `Workflows.restore` issues for one recorded job. -/
def jobRestoreUpdates (w : Job) : List JobUpdate :=
  schedRestoreUpd w ++ contRestoreUpd w ++ trigRestoreUpd w

/-- The update sequence `Workflows.stop` posts for the fetched jobs, in
iteration order. -/
def workflowsStopUpdates (jobs : List Job) : List JobUpdate :=
  jobs.flatMap jobStopUpdates

/-- The update sequence `Workflows.restore` posts for the snapshotted
jobs, in iteration order. -/
def workflowsRestoreUpdates (jobs : List Job) : List JobUpdate :=
  jobs.flatMap jobRestoreUpdates

/-- Remote job state after `stop()` (which snapshots the fetched jobs
and posts its updates) followed by `restore()` replaying that snapshot,
starting from a remote state equal to the fetched list. -/
def stopThenRestore (jobs : List Job) : List Job :=
  applyUpdates (applyUpdates jobs (workflowsStopUpdates jobs)) (workflowsRestoreUpdates jobs)

/-- `Workflows.restore`: a missing snapshot file (FileNotFoundError) or
a snapshot without jobs means nothing to restore; otherwise the restore
updates are posted in order (each followed by `check_errors`, modelled
on the all-200 path). -/
def workflowsRestore (snapshot : Option (List Job)) : Except PyErr (List JobUpdate) :=
  match snapshot with
  | none => .ok []
  | some jobs =>
    if jobs.isEmpty then .ok []
    else .ok (workflowsRestoreUpdates jobs)

/-- A job run as returned by `jobs/runs/list` with `active_only=true`
(only the fields `stop` uses). -/
structure Run where
  run_id : Nat
deriving DecidableEq, Repr

/-- A cluster as returned by `clusters/list` (only the fields `stop`
uses). -/
structure Cluster where
  cluster_id : String
  state : String
deriving DecidableEq, Repr

/-- A SQL warehouse as returned by `sql/warehouses` (only the fields
`stop` uses). -/
structure Warehouse where
  id : String
  state : String
deriving DecidableEq, Repr

/-- A mutating remote call issued by one of the `stop`/`restore`
operations. -/
inductive RemoteCall
  | deletePermission (principal_id : Nat)
  | putPermission (principal_id : Nat)
  | jobsUpdate (u : JobUpdate)
  | cancelRun (run_id : Nat)
  | deleteCluster (cluster_id : String)
  | stopWarehouse (id : String)
deriving DecidableEq, Repr

/-- An observable side-effecting step of a `stop` invocation: either the
snapshot write (`DatabricksFeature.store` under the given name) or a
mutating remote call. -/
inductive Event
  | store (name : String)
  | call (c : RemoteCall)
deriving DecidableEq, Repr

/-- Whether an event is a mutating remote call. -/
def Event.isCall : Event → Bool
  | .call _ => true
  | .store _ => false

/-- The mutating remote calls of a trace, in order. -/
def eventCalls (t : List Event) : List RemoteCall :=
  t.filterMap (fun e => match e with | .call c => some c | .store _ => none)

/-- Side-effect trace of `WorkspacePermissions.stop`: the snapshot is
stored first, then one DELETE per non-ignored principal is submitted. -/
def permissionsStopTrace (principal_ids ignored : List Nat) : List Event :=
  Event.store "permission_assignments" ::
    (revokedIds principal_ids ignored).map (fun p => Event.call (.deletePermission p))

/-- Side-effect trace of `Workflows.stop`: when the fetched collection
has no jobs the function returns before `self.store`, so nothing at all
is persisted; otherwise the snapshot is stored and the updates posted. -/
def workflowsStopTrace (jobs : List Job) : List Event :=
  if jobs.isEmpty then []
  else
    Event.store "workflows" ::
      (workflowsStopUpdates jobs).map (fun u => Event.call (.jobsUpdate u))

/-- Side-effect trace of `JobRuns.stop`: the snapshot of the
active-only fetch is stored first, then each active run is cancelled. -/
def jobRunsStopTrace (runs : List Run) : List Event :=
  Event.store "job_runs" :: runs.map (fun r => Event.call (.cancelRun r.run_id))

/-- Side-effect trace of `AllPurposeCompute.stop`: the snapshot is
stored first, then every non-TERMINATED cluster is deleted. -/
def computeStopTrace (clusters : List Cluster) : List Event :=
  Event.store "all_purpose_compute_clusters" ::
    (clusters.filter (fun c => c.state != "TERMINATED")).map
      (fun c => Event.call (.deleteCluster c.cluster_id))

/-- Side-effect trace of `SQLWarehouses.stop`: the snapshot is stored
first, then every non-STOPPED warehouse is stopped. -/
def warehousesStopTrace (ws : List Warehouse) : List Event :=
  Event.store "sql_warehouses" ::
    (ws.filter (fun w => w.state != "STOPPED")).map
      (fun w => Event.call (.stopWarehouse w.id))

/-- A trace that persists the snapshot first and only then issues
remote calls. -/
def snapshotFirst (t : List Event) : Prop :=
  ∃ name rest, t = Event.store name :: rest ∧ ∀ e ∈ rest, e.isCall = true

/-- `JobRuns.restore`: prints ".. not restoring job runs" and issues no
remote call, whatever the snapshot holds. -/
def jobRunsRestore (_snapshot : Option (List Run)) : Except PyErr (List RemoteCall) :=
  .ok []

/-- `AllPurposeCompute.restore`: a no-op with an informational message. -/
def computeRestore (_snapshot : Option (List Cluster)) : Except PyErr (List RemoteCall) :=
  .ok []

/-- `SQLWarehouses.restore`: a no-op with an informational message. -/
def warehousesRestore (_snapshot : Option (List Warehouse)) : Except PyErr (List RemoteCall) :=
  .ok []

/-- `DatabricksWorkspaceManager.restore_environment`: the five restores
run sequentially, permissions first; an uncaught error from one of them
stops the run, so the later restores are never invoked. -/
def restoreEnvironment (permSnap : Option (List Nat)) (behav : Nat → TaskBehavior)
    (wfSnap : Option (List Job)) (runsSnap : Option (List Run))
    (clSnap : Option (List Cluster)) (whSnap : Option (List Warehouse)) :
    Except PyErr Unit :=
  match permissionsRestore permSnap behav with
  | .error e => .error e
  | .ok _ =>
    match workflowsRestore wfSnap with
    | .error e => .error e
    | .ok _ =>
      match jobRunsRestore runsSnap with
      | .error e => .error e
      | .ok _ =>
        match computeRestore clSnap with
        | .error e => .error e
        | .ok _ =>
          match warehousesRestore whSnap with
          | .error e => .error e
          | .ok _ => .ok ()

/-- One principal's DELETE answers 500 while another answers 200, for
the concurrent-failure analyses. -/
def c1Behav (p : Nat) : TaskBehavior :=
  if p == 2 then .status 500 else .status 200

/-- One principal's DELETE raises an ordinary exception (caught and
logged), another succeeds. -/
def c4Behav (p : Nat) : TaskBehavior :=
  if p == 2 then .raises else .status 200

/-- A job with everything paused, for concrete instantiations. -/
def pausedJob : Job :=
  Job.mk 7 (JobSettings.mk (some (Schedule.mk "PAUSED" "0 0 * * * ?" "UTC"))
    (some (PauseOnly.mk "PAUSED")) none)

/-- A job snapshotted with an UNPAUSED schedule, for concrete
instantiations. -/
def unpausedJob : Job :=
  Job.mk 11 (JobSettings.mk (some (Schedule.mk "UNPAUSED" "0 0 12 * * ?" "UTC"))
    (some (PauseOnly.mk "UNPAUSED")) none)

/-- When no submitted task escapes the `except Exception` handler, the
collection loop finishes normally. -/
theorem collectFutures_ok (results : List (Except PyErr Unit))
    (h : ∀ r ∈ results, taskEscapes r = false) : collectFutures results = .ok () := by
  induction results with
  | nil => rfl
  | cons r rest ih =>
    have hr := h r (List.mem_cons_self r rest)
    have hrest := ih (fun x hx => h x (List.mem_cons_of_mem r hx))
    cases r with
    | ok _ => simpa [collectFutures] using hrest
    | error e =>
      have he : e.isException = true := by
        simpa [taskEscapes] using hr
      simpa [collectFutures, he] using hrest

/-- C1: refuted by the code.  In the concurrent bulk revoke, a non-200
response for one principal makes `check_errors` raise `SystemExit`
(bare `sys.exit()`) inside the task; `future.result()` re-raises it in
the caller and `except Exception` does not catch `SystemExit`, so the
error escapes `stop()` and aborts the invocation (the sibling tasks,
already submitted, still run).  The claim says such a failure is
caught, logged, and never re-raised. -/
theorem permissions_stop_non200_escapes :
    (permissionsStop [1, 2] [] c1Behav).outcome = .error (.systemExit none) ∧
      (permissionsStop [1, 2] [] c1Behav).submitted = [1, 2] :=
  ⟨rfl, rfl⟩

/-- C2, counterexample: a non-200 response to a required sequential
call ends the process through `check_errors`'s bare `sys.exit()`, whose
exit status is 0 — not the non-zero status the claim requires. -/
theorem check_errors_exits_zero : runExit (check_errors 500) = 0 := rfl

/-- C2, amended: a missing credential (unset or empty environment
variable, or a failed `az` token fetch) and a missing or malformed
environment entry all terminate with exit status 1; but a non-200
response to a required sequential call and a missing (or empty)
restore-state directory terminate through bare `sys.exit()` with exit
status 0. -/
theorem exit_codes_amended (c : Nat) (hc : c ≠ 200)
    (v : Option String) (hv : v = none ∨ v = some "")
    (file : Option (List (String × EnvEntry))) (envName : String)
    (hbad : ∀ p, loadEnv file envName ≠ .ok p)
    (rtl_env choice : String) :
    runExit (get_env_var v) = 1 ∧
      runExit (get_access_token none) = 1 ∧
      runExit (loadEnv file envName) = 1 ∧
      runExit (check_errors c) = 0 ∧
      runExit (choose_restore_point none rtl_env choice) = 0 ∧
      runExit (choose_restore_point (some []) rtl_env choice) = 0 := by
  refine ⟨?_, rfl, ?_, ?_, rfl, rfl⟩
  · rcases hv with rfl | rfl <;> rfl
  · rcases file with _ | entries
    · rfl
    · rcases hlk : lookupEnv entries envName with _ | entry
      · simp [loadEnv, hlk, runExit, PyErr.exitStatus]
      · rcases entry with u | _
        · rcases hx : extractWorkspaceId u with _ | wid
          · simp [loadEnv, hlk, hx, runExit, PyErr.exitStatus]
          · exact absurd (by simp [loadEnv, hlk, hx]) (hbad (u, wid))
        · simp [loadEnv, hlk, runExit, PyErr.exitStatus]
  · unfold check_errors
    rw [if_pos hc]
    rfl

/-- Concrete instantiation of `exit_codes_amended`. -/
theorem exit_codes_amended_witness :
    ((500 : Nat) ≠ 200 ∧ (none = (none : Option String) ∨ (none : Option String) = some "") ∧
        (∀ p, loadEnv (some []) "dev" ≠ .ok p)) ∧
      (runExit (get_env_var none) = 1 ∧
        runExit (get_access_token none) = 1 ∧
        runExit (loadEnv (some []) "dev") = 1 ∧
        runExit (check_errors 500) = 0 ∧
        runExit (choose_restore_point none "dev" "") = 0 ∧
        runExit (choose_restore_point (some []) "dev" "") = 0) :=
  ⟨⟨by decide, Or.inl rfl, fun p => by simp [loadEnv, lookupEnv]⟩,
    exit_codes_amended 500 (by decide) none (Or.inl rfl) (some []) "dev"
      (fun p => by simp [loadEnv, lookupEnv]) "dev" ""⟩

/-- C3, counterexample: a single-page response (`has_more` absent,
hence falsy) that lacks the aggregate key is returned as-is by
`combine_paginated_results` without any error — the missing-key check
only runs inside the continuation loop.  The claim says any page
lacking the key makes the fetch fail. -/
theorem pagination_missing_key_single_page_ok :
    combine_paginated_results [⟨200, none, none⟩] = .ok none := rfl

/-- C3, amended: when the first page reports no further pages, the
fetch returns that page's collection unchanged even if the aggregate
key is absent; when the first page lacks the key and reports
`has_more`, the loop raises ValueError before fetching further; and a
continuation page lacking the key makes the aggregation expression
raise KeyError.  In the two raising cases no collection is returned. -/
theorem pagination_missing_key_amended (p0 p1 : Page) (rest : List Page)
    (l : List Nat) (h0 : p0.status = 200) :
    (p0.has_more.getD false = false →
        combine_paginated_results (p0 :: rest) = .ok p0.items) ∧
      (p0.items = none → p0.has_more = some true →
        combine_paginated_results (p0 :: rest) = .error .valueError) ∧
      (p0.items = some l → p0.has_more = some true → p1.status = 200 → p1.items = none →
        combine_paginated_results (p0 :: p1 :: rest) = .error .keyError) := by
  refine ⟨fun hm => ?_, fun hi hm => ?_, fun hi hm h1 hi1 => ?_⟩
  · simp only [combine_paginated_results]
    rw [if_neg (by simp [h0]), hm]
    simp only [combineLoop]
  · simp only [combine_paginated_results]
    rw [if_neg (by simp [h0]), hi, hm]
    simp only [Option.getD, combineLoop]
  · simp only [combine_paginated_results]
    rw [if_neg (by simp [h0]), hi, hm]
    show combineLoop (some l) true (p1 :: rest) = .error .keyError
    simp only [combineLoop]
    rw [if_neg (by simp [h1]), hi1]

/-- Concrete instantiation of `pagination_missing_key_amended`. -/
theorem pagination_missing_key_amended_witness :
    (Page.mk 200 (some [1]) (some true)).status = 200 ∧
      (((Page.mk 200 (some [1]) (some true)).has_more.getD false = false →
          combine_paginated_results [Page.mk 200 (some [1]) (some true)] =
            .ok (Page.mk 200 (some [1]) (some true)).items) ∧
        ((Page.mk 200 (some [1]) (some true)).items = none →
          (Page.mk 200 (some [1]) (some true)).has_more = some true →
          combine_paginated_results [Page.mk 200 (some [1]) (some true)] =
            .error .valueError) ∧
        ((Page.mk 200 (some [1]) (some true)).items = some [1] →
          (Page.mk 200 (some [1]) (some true)).has_more = some true →
          (Page.mk 200 none (some false)).status = 200 →
          (Page.mk 200 none (some false)).items = none →
          combine_paginated_results
              [Page.mk 200 (some [1]) (some true), Page.mk 200 none (some false)] =
            .error .keyError)) :=
  ⟨rfl, pagination_missing_key_amended (Page.mk 200 (some [1]) (some true))
    (Page.mk 200 none (some false)) [] [1] rfl⟩

/-- C4, counterexample: with two submitted tasks of which one fails
with a caught exception, `stop` still prints
`Deleted {len(principal_ids)} permissions` — the submitted count 2 —
although only 1 task succeeded.  The claim says the reported count is
the number of successes. -/
theorem permissions_stop_count_cex :
    (permissionsStop [1, 2] [] c4Behav).outcome = .ok 2 ∧
      successCount ((revokedIds [1, 2] []).map (fun p => remove_permission (c4Behav p))) = 1 :=
  ⟨rfl, rfl⟩

/-- C4, amended: whenever every per-task failure is an ordinary
exception (so nothing escapes the `except Exception` handler), the
count reported by the concurrent bulk revoke equals the number of
submitted tasks — successes plus caught failures — not the number of
successes. -/
theorem permissions_stop_reports_submitted (principal_ids ignored : List Nat)
    (behav : Nat → TaskBehavior)
    (h : ∀ p ∈ revokedIds principal_ids ignored,
      taskEscapes (remove_permission (behav p)) = false) :
    (permissionsStop principal_ids ignored behav).outcome =
      .ok (revokedIds principal_ids ignored).length := by
  have hok : collectFutures
      ((revokedIds principal_ids ignored).map (fun p => remove_permission (behav p))) =
      .ok () := by
    refine collectFutures_ok _ ?_
    intro r hr
    rcases List.mem_map.mp hr with ⟨p, hp, rfl⟩
    exact h p hp
  show (collectFutures _).map _ = _
  rw [hok]
  rfl

/-- Concrete instantiation of `permissions_stop_reports_submitted`:
three principals, one ignored, one failing with a caught exception. -/
theorem permissions_stop_reports_submitted_witness :
    (∀ p ∈ revokedIds [1, 2, 3] [1], taskEscapes (remove_permission (c4Behav p)) = false) ∧
      (permissionsStop [1, 2, 3] [1] c4Behav).outcome = .ok (revokedIds [1, 2, 3] [1]).length :=
  ⟨by decide, permissions_stop_reports_submitted [1, 2, 3] [1] c4Behav (by decide)⟩

/-- C7: confirmed.  The bulk revoke submits a DELETE for exactly the
principals whose id is not in the ignore-list (when the ignore-list is
empty the filter is skipped as falsy, with the same meaning). -/
theorem permissions_stop_revokes_non_ignored (principal_ids ignored : List Nat)
    (behav : Nat → TaskBehavior) :
    (permissionsStop principal_ids ignored behav).submitted =
      principal_ids.filter (fun p => !(ignored.contains p)) := by
  show revokedIds principal_ids ignored = _
  unfold revokedIds
  split
  · next hemp =>
    rw [List.isEmpty_iff.mp hemp]
    simp
  · rfl

/-- The continuation loop aggregates a well-formed page sequence into
the concatenation of its item arrays. -/
theorem combineLoop_mkPages (itemss : List (List Nat)) (acc : List Nat)
    (h : itemss ≠ []) :
    combineLoop (some acc) true (mkPages itemss) = .ok (some (acc ++ itemss.flatten)) := by
  induction itemss generalizing acc with
  | nil => exact absurd rfl h
  | cons l rest ih =>
    cases rest with
    | nil => simp [mkPages, combineLoop]
    | cons l2 rest2 =>
      show combineLoop (some acc) true (⟨200, some l, some true⟩ :: mkPages (l2 :: rest2)) = _
      simp only [combineLoop]
      rw [if_neg (by simp)]
      show combineLoop (some (acc ++ l)) true (mkPages (l2 :: rest2)) = _
      rw [ih (acc ++ l) (by simp)]
      simp

/-- C8: confirmed.  For a response sequence of N ≥ 1 pages, each of
status 200 carrying its items under the aggregate key, with `has_more`
true on every page but the last, the fetch terminates and returns the
page items concatenated in arrival order, of length Σ k_i. -/
theorem pagination_aggregates_all_pages (itemss : List (List Nat)) (h : itemss ≠ []) :
    combine_paginated_results (mkPages itemss) = .ok (some itemss.flatten) ∧
      itemss.flatten.length = (itemss.map List.length).sum := by
  refine ⟨?_, by simp⟩
  cases itemss with
  | nil => exact absurd rfl h
  | cons l rest =>
    cases rest with
    | nil => simp [mkPages, combine_paginated_results, combineLoop]
    | cons l2 rest2 =>
      show combine_paginated_results (⟨200, some l, some true⟩ :: mkPages (l2 :: rest2)) = _
      simp only [combine_paginated_results]
      rw [if_neg (by simp)]
      show combineLoop (some l) true (mkPages (l2 :: rest2)) = _
      rw [combineLoop_mkPages (l2 :: rest2) l (by simp)]
      simp

/-- Concrete instantiation of `pagination_aggregates_all_pages`. -/
theorem pagination_aggregates_all_pages_witness :
    ([[1, 2], [3]] : List (List Nat)) ≠ [] ∧
      (combine_paginated_results (mkPages [[1, 2], [3]]) = .ok (some [1, 2, 3]) ∧
        ([[1, 2], [3]] : List (List Nat)).flatten.length =
          (([[1, 2], [3]] : List (List Nat)).map List.length).sum) :=
  ⟨by decide, pagination_aggregates_all_pages [[1, 2], [3]] (by decide)⟩

/-- C10: confirmed.  During restore a missing snapshot file is treated
as nothing-to-restore for workflows (and job runs, clusters and
warehouses never read one), but a missing permissions snapshot raises
an uncaught FileNotFoundError that stops the whole restore; with a
present permissions snapshot the run continues past a missing
workflows snapshot. -/
theorem restore_missing_snapshot_policy (behav : Nat → TaskBehavior)
    (wfSnap : Option (List Job)) (runsSnap : Option (List Run))
    (clSnap : Option (List Cluster)) (whSnap : Option (List Warehouse))
    (assignments : List Nat) :
    permissionsRestore none behav = .error .fileNotFound ∧
      workflowsRestore none = .ok [] ∧
      jobRunsRestore runsSnap = .ok [] ∧
      computeRestore clSnap = .ok [] ∧
      warehousesRestore whSnap = .ok [] ∧
      restoreEnvironment none behav wfSnap runsSnap clSnap whSnap = .error .fileNotFound ∧
      restoreEnvironment (some assignments) (fun _ => .status 200) none runsSnap clSnap whSnap =
        .ok () := by
  have hok : collectFutures
      (assignments.map (fun _ => restore_permission (TaskBehavior.status 200))) =
      .ok () := by
    refine collectFutures_ok _ ?_
    intro r hr
    rcases List.mem_map.mp hr with ⟨p, _, rfl⟩
    rfl
  have hpr : permissionsRestore (some assignments) (fun _ => .status 200) =
      .ok assignments.length := by
    simp only [permissionsRestore]
    rw [hok]
    rfl
  refine ⟨rfl, rfl, rfl, rfl, rfl, rfl, ?_⟩
  simp [restoreEnvironment, hpr, workflowsRestore, jobRunsRestore, computeRestore,
    warehousesRestore]

/-- When every current principal is in the ignore-list, no DELETE is
submitted. -/
theorem revokedIds_eq_nil (principal_ids ignored : List Nat)
    (h : ∀ p ∈ principal_ids, p ∈ ignored) : revokedIds principal_ids ignored = [] := by
  unfold revokedIds
  split
  · next hemp =>
    rw [List.isEmpty_iff.mp hemp] at h
    exact List.eq_nil_iff_forall_not_mem.mpr (fun p hp => (List.not_mem_nil p) (h p hp))
  · refine List.filter_eq_nil_iff.mpr ?_
    intro p hp
    simp [h p hp]

/-- A job with no unpaused mechanism generates no stop update. -/
theorem jobStopUpdates_eq_nil (w : Job) (hs : schedIsUnpaused w = false)
    (hc : contIsUnpaused w = false) (ht : trigIsUnpaused w = false) :
    jobStopUpdates w = [] := by
  rcases hsch : w.settings.schedule with _ | s <;>
    rcases hcon : w.settings.continuous with _ | c <;>
      rcases htr : w.settings.trigger with _ | t <;>
        simp_all [jobStopUpdates, schedStopUpd, contStopUpd, trigStopUpd, schedIsUnpaused,
          contIsUnpaused, trigIsUnpaused]

/-- A fully paused job list generates no stop update at all. -/
theorem workflowsStopUpdates_eq_nil (jobs : List Job)
    (h : ∀ w ∈ jobs, schedIsUnpaused w = false ∧ contIsUnpaused w = false ∧
      trigIsUnpaused w = false) : workflowsStopUpdates jobs = [] := by
  unfold workflowsStopUpdates
  induction jobs with
  | nil => rfl
  | cons w rest ih =>
    rcases h w (List.mem_cons_self w rest) with ⟨h1, h2, h3⟩
    rw [List.flatMap_cons, jobStopUpdates_eq_nil w h1 h2 h3,
      ih (fun x hx => h x (List.mem_cons_of_mem w hx))]
    rfl

/-- C6: confirmed.  When every item of every resource kind is already
in the state a completed `stop` leaves it in (all assignments ignored,
every job mechanism paused, no active run, every cluster TERMINATED,
every warehouse STOPPED), a second `stop` issues zero mutating remote
calls for each kind. -/
theorem stop_idempotent_second_run (principal_ids ignored : List Nat) (jobs : List Job)
    (clusters : List Cluster) (ws : List Warehouse)
    (hperm : ∀ p ∈ principal_ids, p ∈ ignored)
    (hjobs : ∀ w ∈ jobs, schedIsUnpaused w = false ∧ contIsUnpaused w = false ∧
      trigIsUnpaused w = false)
    (hcl : ∀ c ∈ clusters, c.state = "TERMINATED")
    (hws : ∀ w ∈ ws, w.state = "STOPPED") :
    eventCalls (permissionsStopTrace principal_ids ignored) = [] ∧
      eventCalls (workflowsStopTrace jobs) = [] ∧
      eventCalls (jobRunsStopTrace []) = [] ∧
      eventCalls (computeStopTrace clusters) = [] ∧
      eventCalls (warehousesStopTrace ws) = [] := by
  refine ⟨?_, ?_, rfl, ?_, ?_⟩
  · simp [permissionsStopTrace, revokedIds_eq_nil principal_ids ignored hperm, eventCalls]
  · unfold workflowsStopTrace
    split
    · rfl
    · rw [workflowsStopUpdates_eq_nil jobs hjobs]
      rfl
  · have hfil : clusters.filter (fun c => c.state != "TERMINATED") = [] := by
      refine List.filter_eq_nil_iff.mpr ?_
      intro c hc
      simp [hcl c hc]
    simp [computeStopTrace, hfil, eventCalls]
  · have hfil : ws.filter (fun w => w.state != "STOPPED") = [] := by
      refine List.filter_eq_nil_iff.mpr ?_
      intro w hw
      simp [hws w hw]
    simp [warehousesStopTrace, hfil, eventCalls]

/-- Concrete instantiation of `stop_idempotent_second_run`. -/
theorem stop_idempotent_second_run_witness :
    ((∀ p ∈ [5], p ∈ [5, 6]) ∧
        (∀ w ∈ [pausedJob], schedIsUnpaused w = false ∧ contIsUnpaused w = false ∧
          trigIsUnpaused w = false) ∧
        (∀ c ∈ [Cluster.mk "c1" "TERMINATED"], c.state = "TERMINATED") ∧
        (∀ w ∈ [Warehouse.mk "w1" "STOPPED"], w.state = "STOPPED")) ∧
      (eventCalls (permissionsStopTrace [5] [5, 6]) = [] ∧
        eventCalls (workflowsStopTrace [pausedJob]) = [] ∧
        eventCalls (jobRunsStopTrace []) = [] ∧
        eventCalls (computeStopTrace [Cluster.mk "c1" "TERMINATED"]) = [] ∧
        eventCalls (warehousesStopTrace [Warehouse.mk "w1" "STOPPED"]) = []) :=
  ⟨⟨by decide, by decide, by decide, by decide⟩,
    stop_idempotent_second_run [5] [5, 6] [pausedJob] [Cluster.mk "c1" "TERMINATED"]
      [Warehouse.mk "w1" "STOPPED"] (by decide) (by decide) (by decide) (by decide)⟩

/-- C9, counterexample: `Workflows.stop` on a fetched collection with
no jobs returns before `self.store`, so its trace holds no snapshot
event at all — the claim says the snapshot is persisted even when the
fetched collection is empty. -/
theorem workflows_stop_empty_no_snapshot : workflowsStopTrace [] = [] := rfl

/-- C9, amended: every `stop` persists its snapshot before issuing any
mutating remote call, and permissions, job runs, compute and warehouses
persist it even when nothing needs mutation; `Workflows.stop` however
skips the snapshot (and everything else) when the fetched collection
has no jobs, persisting it only for a non-empty collection. -/
theorem stop_snapshot_before_calls (principal_ids ignored : List Nat) (jobs : List Job)
    (runs : List Run) (clusters : List Cluster) (ws : List Warehouse)
    (hjobs : jobs ≠ []) :
    snapshotFirst (permissionsStopTrace principal_ids ignored) ∧
      snapshotFirst (workflowsStopTrace jobs) ∧
      snapshotFirst (jobRunsStopTrace runs) ∧
      snapshotFirst (computeStopTrace clusters) ∧
      snapshotFirst (warehousesStopTrace ws) := by
  have hmap : ∀ {α : Type} (f : α → RemoteCall) (xs : List α),
      ∀ e ∈ xs.map (fun x => Event.call (f x)), e.isCall = true := by
    intro α f xs e he
    rcases List.mem_map.mp he with ⟨x, _, rfl⟩
    rfl
  refine ⟨⟨"permission_assignments", _, rfl, hmap _ _⟩, ?_,
    ⟨"job_runs", _, rfl, hmap _ _⟩,
    ⟨"all_purpose_compute_clusters", _, rfl, hmap _ _⟩,
    ⟨"sql_warehouses", _, rfl, hmap _ _⟩⟩
  cases jobs with
  | nil => exact absurd rfl hjobs
  | cons w rest =>
    exact ⟨"workflows", _, rfl, hmap _ _⟩

/-- Concrete instantiation of `stop_snapshot_before_calls`. -/
theorem stop_snapshot_before_calls_witness :
    ([pausedJob] ≠ []) ∧
      (snapshotFirst (permissionsStopTrace [1, 2] [1]) ∧
        snapshotFirst (workflowsStopTrace [pausedJob]) ∧
        snapshotFirst (jobRunsStopTrace [Run.mk 3]) ∧
        snapshotFirst (computeStopTrace [Cluster.mk "c1" "RUNNING"]) ∧
        snapshotFirst (warehousesStopTrace [Warehouse.mk "w1" "RUNNING"])) :=
  ⟨List.cons_ne_nil pausedJob [],
    stop_snapshot_before_calls [1, 2] [1] [pausedJob] [Run.mk 3]
      [Cluster.mk "c1" "RUNNING"] [Warehouse.mk "w1" "RUNNING"]
      (List.cons_ne_nil pausedJob [])⟩

/-- A `jobs/update` POST never changes a job's id. -/
theorem applyToJob_job_id (w : Job) (u : JobUpdate) : (applyToJob w u).job_id = w.job_id := by
  unfold applyToJob
  split
  · cases u <;> rfl
  · rfl

/-- Applying any update sequence never changes a job's id. -/
theorem foldl_applyToJob_job_id (us : List JobUpdate) (w : Job) :
    (us.foldl applyToJob w).job_id = w.job_id := by
  induction us generalizing w with
  | nil => rfl
  | cons u rest ih => rw [List.foldl_cons, ih, applyToJob_job_id]

/-- An update addressed to a different job id is a no-op on this job. -/
theorem applyToJob_other (w : Job) (u : JobUpdate) (h : u.jobId ≠ w.job_id) :
    applyToJob w u = w := by
  unfold applyToJob
  rw [if_neg (fun hh => h hh.symm)]

/-- Applying an update sequence to one job only depends on the updates
addressed to that job's id. -/
theorem foldl_applyToJob_filter (us : List JobUpdate) (w : Job) :
    us.foldl applyToJob w =
      (us.filter (fun u => u.jobId == w.job_id)).foldl applyToJob w := by
  induction us generalizing w with
  | nil => rfl
  | cons u rest ih =>
    by_cases h : u.jobId = w.job_id
    · rw [List.foldl_cons, List.filter_cons_of_pos (by simp [h]), List.foldl_cons]
      have hrec := ih (applyToJob w u)
      rwa [applyToJob_job_id] at hrec
    · rw [List.foldl_cons, applyToJob_other w u h,
        List.filter_cons_of_neg (by simp [h]), ih]

/-- Posting an update sequence acts pointwise on the remote job list. -/
theorem foldl_applyUpdate_map (us : List JobUpdate) (remote : List Job) :
    us.foldl applyUpdate remote = remote.map (fun w => us.foldl applyToJob w) := by
  induction us generalizing remote with
  | nil => simp
  | cons u rest ih =>
    rw [List.foldl_cons, ih (applyUpdate remote u)]
    unfold applyUpdate
    rw [List.map_map]
    rfl

/-- Stop followed by restore acts pointwise with the concatenated
update sequence. -/
theorem stopThenRestore_pointwise (jobs : List Job) :
    stopThenRestore jobs = jobs.map (fun w =>
      (workflowsStopUpdates jobs ++ workflowsRestoreUpdates jobs).foldl applyToJob w) := by
  unfold stopThenRestore applyUpdates
  rw [← List.foldl_append, foldl_applyUpdate_map]

/-- A stop schedule update exists only for a job fetched UNPAUSED, and
then pauses it preserving cron expression and timezone. -/
theorem schedStopUpd_unpaused (w : Job) (s : Schedule) (hs : w.settings.schedule = some s)
    (hp : s.pause_status = "UNPAUSED") :
    schedStopUpd w = [JobUpdate.schedule w.job_id
      (Schedule.mk "PAUSED" s.quartz_cron_expression s.timezone_id)] := by
  simp only [schedStopUpd, hs]
  rw [if_pos (by simp [hp])]

/-- No stop schedule update is generated for a job whose fetched
schedule is not UNPAUSED. -/
theorem schedStopUpd_other (w : Job) (s : Schedule) (hs : w.settings.schedule = some s)
    (hp : s.pause_status ≠ "UNPAUSED") : schedStopUpd w = [] := by
  simp only [schedStopUpd, hs]
  rw [if_neg (by simp [hp])]

/-- A restore schedule update exists only for a job recorded UNPAUSED,
and then unpauses it with the recorded cron expression and timezone. -/
theorem schedRestoreUpd_unpaused (w : Job) (s : Schedule) (hs : w.settings.schedule = some s)
    (hp : s.pause_status = "UNPAUSED") :
    schedRestoreUpd w = [JobUpdate.schedule w.job_id
      (Schedule.mk "UNPAUSED" s.quartz_cron_expression s.timezone_id)] := by
  simp only [schedRestoreUpd, hs]
  rw [if_pos (by simp [hp])]

/-- No restore schedule update is generated for a job whose recorded
schedule is not UNPAUSED. -/
theorem schedRestoreUpd_other (w : Job) (s : Schedule) (hs : w.settings.schedule = some s)
    (hp : s.pause_status ≠ "UNPAUSED") : schedRestoreUpd w = [] := by
  simp only [schedRestoreUpd, hs]
  rw [if_neg (by simp [hp])]

/-- Every member of `schedStopUpd w` is a schedule update for `w`. -/
theorem mem_schedStopUpd (w : Job) (u : JobUpdate) (h : u ∈ schedStopUpd w) :
    ∃ sch, u = JobUpdate.schedule w.job_id sch := by
  unfold schedStopUpd at h
  rcases hs : w.settings.schedule with _ | s
  · simp only [hs] at h
    exact absurd h (List.not_mem_nil u)
  · simp only [hs] at h
    by_cases hc : (s.pause_status == "UNPAUSED") = true
    · rw [if_pos hc] at h
      exact ⟨_, List.mem_singleton.mp h⟩
    · rw [if_neg hc] at h
      exact absurd h (List.not_mem_nil u)

/-- Every member of `contStopUpd w` is a continuous update for `w`. -/
theorem mem_contStopUpd (w : Job) (u : JobUpdate) (h : u ∈ contStopUpd w) :
    ∃ ps, u = JobUpdate.continuous w.job_id ps := by
  unfold contStopUpd at h
  rcases hc : w.settings.continuous with _ | c
  · simp only [hc] at h
    exact absurd h (List.not_mem_nil u)
  · simp only [hc] at h
    by_cases hcc : (c.pause_status == "UNPAUSED") = true
    · rw [if_pos hcc] at h
      exact ⟨_, List.mem_singleton.mp h⟩
    · rw [if_neg hcc] at h
      exact absurd h (List.not_mem_nil u)

/-- Every member of `trigStopUpd w` is a trigger update for `w`. -/
theorem mem_trigStopUpd (w : Job) (u : JobUpdate) (h : u ∈ trigStopUpd w) :
    ∃ ps, u = JobUpdate.trigger w.job_id ps := by
  unfold trigStopUpd at h
  rcases ht : w.settings.trigger with _ | t
  · simp only [ht] at h
    exact absurd h (List.not_mem_nil u)
  · simp only [ht] at h
    by_cases htc : (t.pause_status == "UNPAUSED") = true
    · rw [if_pos htc] at h
      exact ⟨_, List.mem_singleton.mp h⟩
    · rw [if_neg htc] at h
      exact absurd h (List.not_mem_nil u)

/-- Every member of `schedRestoreUpd w` is a schedule update for `w`. -/
theorem mem_schedRestoreUpd (w : Job) (u : JobUpdate) (h : u ∈ schedRestoreUpd w) :
    ∃ sch, u = JobUpdate.schedule w.job_id sch := by
  unfold schedRestoreUpd at h
  rcases hs : w.settings.schedule with _ | s
  · simp only [hs] at h
    exact absurd h (List.not_mem_nil u)
  · simp only [hs] at h
    by_cases hc : (s.pause_status == "UNPAUSED") = true
    · rw [if_pos hc] at h
      exact ⟨_, List.mem_singleton.mp h⟩
    · rw [if_neg hc] at h
      exact absurd h (List.not_mem_nil u)

/-- Every member of `contRestoreUpd w` is a continuous update for `w`. -/
theorem mem_contRestoreUpd (w : Job) (u : JobUpdate) (h : u ∈ contRestoreUpd w) :
    ∃ ps, u = JobUpdate.continuous w.job_id ps := by
  unfold contRestoreUpd at h
  rcases hc : w.settings.continuous with _ | c
  · simp only [hc] at h
    exact absurd h (List.not_mem_nil u)
  · simp only [hc] at h
    by_cases hcc : (c.pause_status == "UNPAUSED") = true
    · rw [if_pos hcc] at h
      exact ⟨_, List.mem_singleton.mp h⟩
    · rw [if_neg hcc] at h
      exact absurd h (List.not_mem_nil u)

/-- Every member of `trigRestoreUpd w` is a trigger update for `w`. -/
theorem mem_trigRestoreUpd (w : Job) (u : JobUpdate) (h : u ∈ trigRestoreUpd w) :
    ∃ ps, u = JobUpdate.trigger w.job_id ps := by
  unfold trigRestoreUpd at h
  rcases ht : w.settings.trigger with _ | t
  · simp only [ht] at h
    exact absurd h (List.not_mem_nil u)
  · simp only [ht] at h
    by_cases htc : (t.pause_status == "UNPAUSED") = true
    · rw [if_pos htc] at h
      exact ⟨_, List.mem_singleton.mp h⟩
    · rw [if_neg htc] at h
      exact absurd h (List.not_mem_nil u)

/-- The stop updates generated for one job address that job's id. -/
theorem mem_jobStopUpdates_jobId (w : Job) (u : JobUpdate) (h : u ∈ jobStopUpdates w) :
    u.jobId = w.job_id := by
  unfold jobStopUpdates at h
  rcases List.mem_append.mp h with h' | h'
  · rcases List.mem_append.mp h' with h'' | h''
    · rcases mem_schedStopUpd w u h'' with ⟨sch, rfl⟩; rfl
    · rcases mem_contStopUpd w u h'' with ⟨ps, rfl⟩; rfl
  · rcases mem_trigStopUpd w u h' with ⟨ps, rfl⟩; rfl

/-- The restore updates generated for one job address that job's id. -/
theorem mem_jobRestoreUpdates_jobId (w : Job) (u : JobUpdate) (h : u ∈ jobRestoreUpdates w) :
    u.jobId = w.job_id := by
  unfold jobRestoreUpdates at h
  rcases List.mem_append.mp h with h' | h'
  · rcases List.mem_append.mp h' with h'' | h''
    · rcases mem_schedRestoreUpd w u h'' with ⟨sch, rfl⟩; rfl
    · rcases mem_contRestoreUpd w u h'' with ⟨ps, rfl⟩; rfl
  · rcases mem_trigRestoreUpd w u h' with ⟨ps, rfl⟩; rfl

/-- With pairwise distinct job ids, restricting the generated update
sequence to one member job's id recovers exactly that job's updates. -/
theorem flatMap_filter_eq (f : Job → List JobUpdate)
    (hf : ∀ w u, u ∈ f w → u.jobId = w.job_id)
    (jobs : List Job) (j : Job) (hnd : (jobs.map Job.job_id).Nodup) (hmem : j ∈ jobs) :
    (jobs.flatMap f).filter (fun u => u.jobId == j.job_id) = f j := by
  induction jobs with
  | nil => exact absurd hmem (List.not_mem_nil j)
  | cons w rest ih =>
    rw [List.map_cons, List.nodup_cons] at hnd
    rw [List.flatMap_cons, List.filter_append]
    rcases List.mem_cons.mp hmem with rfl | hmem'
    · have hrest : (rest.flatMap f).filter (fun u => u.jobId == j.job_id) = [] := by
        refine List.filter_eq_nil_iff.mpr ?_
        intro u hu
        rcases List.mem_flatMap.mp hu with ⟨w', hw', hu'⟩
        have hne : w'.job_id ≠ j.job_id := fun hh =>
          hnd.1 (hh ▸ List.mem_map_of_mem Job.job_id hw')
        simp [hf w' u hu', hne]
      have hself : (f j).filter (fun u => u.jobId == j.job_id) = f j := by
        refine List.filter_eq_self.mpr ?_
        intro u hu
        simp [hf j u hu]
      rw [hself, hrest, List.append_nil]
    · have hne : w.job_id ≠ j.job_id := fun hh =>
        hnd.1 (hh ▸ List.mem_map_of_mem Job.job_id hmem')
      have hw0 : (f w).filter (fun u => u.jobId == j.job_id) = [] := by
        refine List.filter_eq_nil_iff.mpr ?_
        intro u hu
        simp [hf w u hu, hne]
      rw [hw0, ih hnd.2 hmem', List.nil_append]

/-- Continuous and trigger updates never write the schedule field. -/
theorem applyToJob_schedule_of_nonsched (w : Job) (u : JobUpdate)
    (h : u.touchesSchedule = false) :
    (applyToJob w u).settings.schedule = w.settings.schedule := by
  cases u with
  | schedule i sch => exact absurd h (by simp [JobUpdate.touchesSchedule])
  | continuous i ps => unfold applyToJob; split <;> rfl
  | trigger i ps => unfold applyToJob; split <;> rfl

/-- A sequence of non-schedule updates leaves the schedule field
unchanged. -/
theorem foldl_schedule_of_nonsched (us : List JobUpdate) (w : Job)
    (h : ∀ u ∈ us, u.touchesSchedule = false) :
    (us.foldl applyToJob w).settings.schedule = w.settings.schedule := by
  induction us generalizing w with
  | nil => rfl
  | cons u rest ih =>
    rw [List.foldl_cons, ih _ (fun x hx => h x (List.mem_cons_of_mem u hx)),
      applyToJob_schedule_of_nonsched w u (h u (List.mem_cons_self u rest))]

/-- A schedule update addressed at this job replaces its schedule. -/
theorem applyToJob_schedule_self (w : Job) (i : Nat) (sch : Schedule) (h : w.job_id = i) :
    (applyToJob w (JobUpdate.schedule i sch)).settings.schedule = some sch := by
  unfold applyToJob
  rw [if_pos (show w.job_id = (JobUpdate.schedule i sch).jobId from h)]

/-- The continuous and trigger updates of one job's stop phase never
write the schedule field. -/
theorem contTrigStop_nonsched (w : Job) :
    ∀ u ∈ contStopUpd w ++ trigStopUpd w, u.touchesSchedule = false := by
  intro u hu
  rcases List.mem_append.mp hu with h | h
  · rcases mem_contStopUpd w u h with ⟨ps, rfl⟩; rfl
  · rcases mem_trigStopUpd w u h with ⟨ps, rfl⟩; rfl

/-- The continuous and trigger updates of one job's restore phase never
write the schedule field. -/
theorem contTrigRestore_nonsched (w : Job) :
    ∀ u ∈ contRestoreUpd w ++ trigRestoreUpd w, u.touchesSchedule = false := by
  intro u hu
  rcases List.mem_append.mp hu with h | h
  · rcases mem_contRestoreUpd w u h with ⟨ps, rfl⟩; rfl
  · rcases mem_trigRestoreUpd w u h with ⟨ps, rfl⟩; rfl

/-- Replaying one job's stop updates and then its restore updates
returns its schedule to the snapshotted value: an UNPAUSED schedule is
paused with preserved cron/timezone and then unpaused with the recorded
cron/timezone, and any other schedule is never written. -/
theorem perJob_roundtrip_schedule (j : Job) (s : Schedule)
    (hs : j.settings.schedule = some s) :
    ((jobStopUpdates j ++ jobRestoreUpdates j).foldl applyToJob j).settings.schedule =
      some s := by
  unfold jobStopUpdates jobRestoreUpdates
  have hCs : ∀ u ∈ contStopUpd j, u.touchesSchedule = false :=
    fun u hu => contTrigStop_nonsched j u (List.mem_append_left _ hu)
  have hTs : ∀ u ∈ trigStopUpd j, u.touchesSchedule = false :=
    fun u hu => contTrigStop_nonsched j u (List.mem_append_right _ hu)
  have hCr : ∀ u ∈ contRestoreUpd j, u.touchesSchedule = false :=
    fun u hu => contTrigRestore_nonsched j u (List.mem_append_left _ hu)
  have hTr : ∀ u ∈ trigRestoreUpd j, u.touchesSchedule = false :=
    fun u hu => contTrigRestore_nonsched j u (List.mem_append_right _ hu)
  by_cases hp : s.pause_status = "UNPAUSED"
  · rw [schedStopUpd_unpaused j s hs hp, schedRestoreUpd_unpaused j s hs hp]
    simp only [List.foldl_append, List.foldl_cons, List.foldl_nil]
    rw [foldl_schedule_of_nonsched _ _ hTr, foldl_schedule_of_nonsched _ _ hCr,
      applyToJob_schedule_self _ _ _ (by
        rw [foldl_applyToJob_job_id, foldl_applyToJob_job_id, applyToJob_job_id])]
    cases s with
    | mk ps q t => simp_all
  · rw [schedStopUpd_other j s hs hp, schedRestoreUpd_other j s hs hp, List.nil_append,
      List.nil_append]
    simp only [List.foldl_append]
    rw [foldl_schedule_of_nonsched _ _ hTr, foldl_schedule_of_nonsched _ _ hCr,
      foldl_schedule_of_nonsched _ _ hTs, foldl_schedule_of_nonsched _ _ hCs, hs]

/-- A non-matching job id means an update is not a schedule update for
that id. -/
theorem isScheduleFor_eq_false_of_ne (u : JobUpdate) (i : Nat) (h : u.jobId ≠ i) :
    u.isScheduleFor i = false := by
  cases u with
  | schedule i' sch => simpa [JobUpdate.isScheduleFor, JobUpdate.jobId] using h
  | continuous i' ps => rfl
  | trigger i' ps => rfl

/-- C5: confirmed.  Starting from a remote state equal to the fetched
jobs, with pairwise distinct job ids, for every job whose fetched
`settings.schedule` exists, running `stop()` then `restore()` leaves
that job's remote schedule exactly equal to the snapshotted one — in
particular an UNPAUSED schedule is UNPAUSED again with identical cron
expression and timezone, and a PAUSED schedule stays PAUSED; moreover
for a PAUSED snapshot `restore()` issues no schedule update for that
job at all. -/
theorem schedule_restore_fidelity (jobs : List Job) (j : Job) (s : Schedule)
    (hnd : (jobs.map Job.job_id).Nodup) (hmem : j ∈ jobs)
    (hs : j.settings.schedule = some s) :
    (∃ w ∈ stopThenRestore jobs, w.job_id = j.job_id) ∧
      (∀ w ∈ stopThenRestore jobs, w.job_id = j.job_id → w.settings.schedule = some s) ∧
      (s.pause_status = "PAUSED" →
        ∀ u ∈ workflowsRestoreUpdates jobs, u.isScheduleFor j.job_id = false) := by
  have hF : ∀ w0 : Job,
      (workflowsStopUpdates jobs ++ workflowsRestoreUpdates jobs).foldl applyToJob w0 =
        ((workflowsStopUpdates jobs ++ workflowsRestoreUpdates jobs).filter
          (fun u => u.jobId == w0.job_id)).foldl applyToJob w0 :=
    fun w0 => foldl_applyToJob_filter _ w0
  refine ⟨?_, ?_, ?_⟩
  · refine ⟨(workflowsStopUpdates jobs ++ workflowsRestoreUpdates jobs).foldl applyToJob j,
      ?_, foldl_applyToJob_job_id _ j⟩
    rw [stopThenRestore_pointwise]
    exact List.mem_map_of_mem _ hmem
  · intro w hw hid
    rw [stopThenRestore_pointwise] at hw
    rcases List.mem_map.mp hw with ⟨w0, hw0, rfl⟩
    rw [foldl_applyToJob_job_id] at hid
    have hw0j : w0 = j := List.inj_on_of_nodup_map hnd hw0 hmem hid
    subst hw0j
    rw [hF w0, List.filter_append]
    unfold workflowsStopUpdates workflowsRestoreUpdates
    rw [flatMap_filter_eq jobStopUpdates mem_jobStopUpdates_jobId jobs w0 hnd hmem,
      flatMap_filter_eq jobRestoreUpdates mem_jobRestoreUpdates_jobId jobs w0 hnd hmem]
    exact perJob_roundtrip_schedule w0 s hs
  · intro hp u hu
    unfold workflowsRestoreUpdates at hu
    rcases List.mem_flatMap.mp hu with ⟨w', hw', hu'⟩
    by_cases hww : w'.job_id = j.job_id
    · have hw'j : w' = j := List.inj_on_of_nodup_map hnd hw' hmem hww
      subst hw'j
      unfold jobRestoreUpdates at hu'
      rw [schedRestoreUpd_other w' s hs (by simp [hp]), List.nil_append] at hu'
      rcases List.mem_append.mp hu' with h | h
      · rcases mem_contRestoreUpd w' u h with ⟨ps, rfl⟩; rfl
      · rcases mem_trigRestoreUpd w' u h with ⟨ps, rfl⟩; rfl
    · refine isScheduleFor_eq_false_of_ne u j.job_id (fun hh => hww ?_)
      rw [← mem_jobRestoreUpdates_jobId w' u hu']
      exact hh

/-- Concrete instantiation of `schedule_restore_fidelity` on a two-job
list: one UNPAUSED schedule round-trips, next to a PAUSED job. -/
theorem schedule_restore_fidelity_witness :
    ((([unpausedJob, pausedJob].map Job.job_id).Nodup ∧ unpausedJob ∈ [unpausedJob, pausedJob] ∧
        unpausedJob.settings.schedule = some (Schedule.mk "UNPAUSED" "0 0 12 * * ?" "UTC")) ∧
      ((∃ w ∈ stopThenRestore [unpausedJob, pausedJob], w.job_id = unpausedJob.job_id) ∧
        (∀ w ∈ stopThenRestore [unpausedJob, pausedJob], w.job_id = unpausedJob.job_id →
          w.settings.schedule = some (Schedule.mk "UNPAUSED" "0 0 12 * * ?" "UTC")) ∧
        ((Schedule.mk "UNPAUSED" "0 0 12 * * ?" "UTC").pause_status = "PAUSED" →
          ∀ u ∈ workflowsRestoreUpdates [unpausedJob, pausedJob],
            u.isScheduleFor unpausedJob.job_id = false))) :=
  ⟨⟨by decide, by decide, rfl⟩,
    schedule_restore_fidelity [unpausedJob, pausedJob] unpausedJob
      (Schedule.mk "UNPAUSED" "0 0 12 * * ?" "UTC") (by decide) (by decide) rfl⟩

end HW

example : HW.runExit (HW.check_errors 500) = 0 := rfl
example : HW.runExit (HW.get_env_var none) = 1 := rfl
example : HW.extractWorkspaceId "https://adb-123.4.azuredatabricks.net" = some "123" := rfl
example : HW.extractWorkspaceId "https://adb-.4.azuredatabricks.net" = none := rfl
example : HW.extractWorkspaceId "https://xadb-9." = some "9" := rfl
example : HW.combine_paginated_results (HW.mkPages [[1,2],[3]]) = .ok (some [1,2,3]) := rfl
example : HW.combine_paginated_results [⟨200, none, none⟩] = .ok none := rfl
example : HW.combine_paginated_results [⟨200, none, some true⟩] = .error .valueError := rfl
example : HW.combine_paginated_results [⟨200, some [1], some true⟩, ⟨200, none, some false⟩] = .error .keyError := rfl
